import Mathlib

/-!
Shallow embedding of `jobs_scraper.py` (a daily job scraper that fetches
listings, deduplicates them, filters by keyword / experience / location,
renders an HTML digest and mails it) together with theorems checking the
natural-language specification against the code.

Python strings are modelled as `List Char`; the Python value `None` is
modelled by `Option`, so a dict field that may hold `None` has type
`Option Str`.  Fallible code (string `join` over a list containing `None`,
HTML rendering of missing fields) is modelled with `Except`.
-/

namespace JobsScraper

abbrev Str := List Char

/-- Whitespace characters recognised by Python's `str.split()` /
regex `\s` (ASCII fragment, which covers all inputs of interest). -/
def isSpaceChar (c : Char) : Bool :=
  c == ' ' || c == '\t' || c == '\n' || c == '\r' || c == '\x0b' || c == '\x0c'

/-- Python `text.split()`: split on runs of whitespace, dropping empty
pieces.  `cur` is the current word accumulated in reverse. -/
def pySplitAux (cur : Str) : Str → List Str
  | [] => if cur.isEmpty then [] else [cur.reverse]
  | c :: rest =>
    if isSpaceChar c then
      if cur.isEmpty then pySplitAux [] rest
      else cur.reverse :: pySplitAux [] rest
    else pySplitAux (c :: cur) rest

def pySplit (s : Str) : List Str := pySplitAux [] s

/-- Model of `normalize_text`: `" ".join(text.split()) if text else ""`. -/
def normalize_text (text : Str) : Str :=
  if text.isEmpty then [] else List.intercalate " ".data (pySplit text)

/-- Python `str.lower()` (ASCII fragment). -/
def strLower (s : Str) : Str := s.map Char.toLower

/-- Model of `needle` matches at the start of `hay`. -/
def headMatch : Str → Str → Bool
  | [], _ => true
  | _ :: _, [] => false
  | c :: cs, d :: ds => c == d && headMatch cs ds

/-- Python `needle in hay` substring test. -/
def strContains (hay needle : Str) : Bool :=
  match hay with
  | [] => needle.isEmpty
  | _ :: rest => headMatch needle hay || strContains rest needle

-- ---------------- Configuration ----------------

def KEYWORDS : List Str :=
  [ "DevOps Engineer".data
  , "Cloud Engineer".data
  , "Site Reliability Engineer".data
  , "Platform Engineer".data
  , "Infrastructure Engineer".data
  , "AWS Engineer".data
  , "Azure DevOps Engineer".data
  , "Kubernetes Engineer".data ]

def MIN_YEARS : Nat := 2
def MAX_YEARS : Nat := 6

-- ---------------- Predicates ----------------

/-- Model of `location_matches`: empty location passes, otherwise the lowercased
text must contain one of the fixed location terms. -/
def location_matches (location_text : Str) : Bool :=
  if location_text.isEmpty then true
  else
    let t := strLower location_text
    [ "remote".data, "india".data, "pan india".data, "india remote".data
    ].any (fun key => strContains t key)

/-- Model of `text_contains_keywords`: any configured keyword (case-insensitive) or
any generic term occurs in the text. -/
def text_contains_keywords (text : Str) : Bool :=
  let t := strLower text
  if KEYWORDS.any (fun kw => strContains t (strLower kw)) then true
  else
    [ "devops".data, "cloud".data, "sre".data, "site reliability".data
    ].any (fun word => strContains t word)

/-- Model of `experience_matches`: acceptance of an extracted experience range
against the configured window `[MIN_YEARS, MAX_YEARS]`.  The four cases
of the Python `if` chain cover all shapes of the two optional bounds, so
the trailing `return False` of the source is unreachable. -/
def experience_matches (min_y max_y : Option Nat) : Bool :=
  match min_y, max_y with
  | none, none => true
  | some n, some m => !(decide (m < MIN_YEARS) || decide (n > MAX_YEARS))
  | some n, none => decide (n ≤ MAX_YEARS)
  | none, some m => decide (m ≥ MIN_YEARS)

-- ---------------- Experience parsing (regex model) ----------------

/-- Digit value of an ASCII digit character. -/
def digitVal (c : Char) : Nat := c.toNat - '0'.toNat

/-- Candidate matches of `\d{1,2}` at the start of `s`, in the order a
greedy (backtracking) regex engine tries them: two digits first, then one.
Each candidate is the captured number paired with the remaining text. -/
def grabDigits : Str → List (Nat × Str)
  | [] => []
  | [c] => if c.isDigit then [(digitVal c, [])] else []
  | c :: d :: rest =>
    if c.isDigit then
      if d.isDigit then
        [(10 * digitVal c + digitVal d, rest), (digitVal c, d :: rest)]
      else [(digitVal c, d :: rest)]
    else []

/-- Consume `\s*` (maximal munch: in every pattern used, the item after
`\s*`/`\s+` can never match a whitespace character, so no backtracking
into the whitespace is ever needed). -/
def dropWs (s : Str) : Str := s.dropWhile isSpaceChar

/-- Consume `\s+`: at least one whitespace character, then maximal munch. -/
def dropWs1 : Str → Option Str
  | [] => none
  | c :: rest => if isSpaceChar c then some (dropWs rest) else none

/-- Consume a literal string. -/
def dropLit (lit s : Str) : Option Str :=
  if headMatch lit s then some (s.drop lit.length) else none

/-- Model of `years?` at the end of a pattern: since nothing follows, a match
exists iff the literal `year` matches here (the trailing `s` optional). -/
def matchYears (s : Str) : Bool := headMatch "year".data s

/-- Match `(\d{1,2})\s*[-–]\s*(\d{1,2})\s*years?` at the start of `s`. -/
def matchRangeAt (s : Str) : Option (Nat × Nat) :=
  (grabDigits s).findSome? fun p =>
    match dropWs p.2 with
    | [] => none
    | c :: r =>
      if c == '-' || c == '–' then
        (grabDigits (dropWs r)).findSome? fun q =>
          if matchYears (dropWs q.2) then some (p.1, q.1) else none
      else none

/-- Match `(\d{1,2})\s*\+\s*years?` at the start of `s`. -/
def matchPlusAt (s : Str) : Option Nat :=
  (grabDigits s).findSome? fun p =>
    match dropWs p.2 with
    | [] => none
    | c :: r =>
      if c == '+' then
        if matchYears (dropWs r) then some p.1 else none
      else none

/-- Match `(\d{1,2})\s*years?` at the start of `s`. -/
def matchYearsNumAt (s : Str) : Option Nat :=
  (grabDigits s).findSome? fun p =>
    if matchYears (dropWs p.2) then some p.1 else none

/-- Match `minimum\s+of\s+(\d{1,2})\s*years?` at the start of `s`. -/
def matchMinimumAt (s : Str) : Option Nat :=
  (dropLit "minimum".data s).bind fun r1 =>
    (dropWs1 r1).bind fun r2 =>
      (dropLit "of".data r2).bind fun r3 =>
        (dropWs1 r3).bind fun r4 => matchYearsNumAt r4

/-- Model of `re.search`: try the pattern at every start position, leftmost first
(the position at the very end of the text included). -/
def reSearch (f : Str → Option α) : Str → Option α
  | [] => f []
  | c :: rest =>
    match f (c :: rest) with
    | some x => some x
    | none => reSearch f rest

/-- Model of `parse_experience_text`: extract an experience range from free text
by four patterns tried in order, first match wins. -/
def parse_experience_text (text : Str) : Option Nat × Option Nat :=
  if text.isEmpty then (none, none)
  else
    match reSearch matchRangeAt (strLower text) with
    | some p => (some p.1, some p.2)
    | none =>
      match reSearch matchPlusAt (strLower text) with
      | some n => (some n, none)
      | none =>
        match reSearch matchMinimumAt (strLower text) with
        | some n => (some n, none)
        | none =>
          match reSearch matchYearsNumAt (strLower text) with
          | some y => (some y, some y)
          | none => (none, none)

-- ---------------- Job records ----------------

/-- A job dict as produced by the scrapers: every key present, each value
either a string (`some`) or Python `None` (`none`). -/
structure Job where
  title : Option Str
  company : Option Str
  location : Option Str
  link : Option Str
  source : Option Str
  snippet : Option Str
deriving DecidableEq

/-- Python truthiness of an optional string: `None` and `""` are falsy. -/
def pyTruthy : Option Str → Bool
  | none => false
  | some s => !s.isEmpty

-- ---------------- filter_jobs ----------------

/-- The `" ".join([...])` of the four text fields read by `filter_jobs`;
a `None` among them raises `TypeError`, modelled as `Except.error`. -/
def joined_fields (j : Job) : Except Unit Str :=
  match j.title, j.company, j.location, j.snippet with
  | some t, some c, some l, some s =>
    .ok (List.intercalate " ".data [t, c, l, s])
  | _, _, _, _ => .error ()

/-- The three filter checks of `filter_jobs` on one job, given the joined
field text (keyword, then experience, then location). -/
def job_passes (j : Job) (raw : Str) : Bool :=
  let combined := normalize_text raw
  text_contains_keywords combined &&
    (let p := parse_experience_text combined
     experience_matches p.1 p.2) &&
    location_matches (j.location.getD [])

/-- Model of `filter_jobs`: keep the jobs passing all three checks, in order; a
`None` text field raises (`TypeError`) and aborts the whole call. -/
def filter_jobs : List Job → Except Unit (List Job)
  | [] => .ok []
  | j :: rest =>
    match joined_fields j with
    | .error e => .error e
    | .ok raw =>
      match filter_jobs rest with
      | .error e => .error e
      | .ok tail => .ok (if job_passes j raw then j :: tail else tail)

/-- All four text fields used by `filter_jobs` are strings (not `None`). -/
def string_valued (j : Job) : Bool :=
  j.title.isSome && j.company.isSome && j.location.isSome && j.snippet.isSome

/-- The per-job pass predicate, as the spec describes the filter: all
three predicates hold of the record's combined text. -/
def passes_filter (j : Job) : Bool :=
  match joined_fields j with
  | .ok raw => job_passes j raw
  | .error _ => false

-- ---------------- collect_jobs (deduplication) ----------------

/-- Model of `job.get("link") or job.get("title")`: the dedup key value (`link`
preferred when truthy, else `title`; may itself be `None` or empty). -/
def dedup_key (j : Job) : Option Str :=
  if pyTruthy j.link then j.link else j.title

/-- One step of the dedup loop: insert into the ordered dict `unique`
when the key is truthy and unseen (`if key and key not in unique`). -/
def dedup_step (acc : List (Str × Job)) (j : Job) : List (Str × Job) :=
  match dedup_key j with
  | none => acc
  | some k =>
    if k.isEmpty then acc
    else if acc.any (fun p => p.1 == k) then acc
    else acc ++ [(k, j)]

/-- The deduplication stage of `collect_jobs`: `scraped` is the
concatenation, in fetch order, of all fetcher outputs over `KEYWORDS`;
the result is `list(unique.values())` of the insertion-ordered dict. -/
def collect_jobs (scraped : List Job) : List Job :=
  (scraped.foldl dedup_step []).map (fun p => p.2)

/-- The spec's description of deduplication: walk the list keeping the
first record of each truthy key, in first-seen order. -/
def first_seen_dedup (seen : List Str) : List Job → List Job
  | [] => []
  | j :: rest =>
    match dedup_key j with
    | none => first_seen_dedup seen rest
    | some k =>
      if k.isEmpty then first_seen_dedup seen rest
      else if seen.any (fun s => s == k) then first_seen_dedup seen rest
      else j :: first_seen_dedup (k :: seen) rest

-- ---------------- build_email_html ----------------

/-- Model of `html.escape` with default quoting: `&`, `<`, `>`, `"` and the
apostrophe are replaced by their entities (the sequential replaces of the
library function amount to this character-wise map, since `&` is replaced
first). -/
def html_escape (s : Str) : Str :=
  s.foldr (fun c out =>
    (if c == '&' then "&amp;".data
     else if c == '<' then "&lt;".data
     else if c == '>' then "&gt;".data
     else if c == '"' then "&quot;".data
     else if c == Char.ofNat 39 then "&#x27;".data
     else [c]) ++ out) []

/-- Decimal rendering of the 1-based row index. -/
def natStr (n : Nat) : Str := (Nat.repr n).data

/-- Python `a or b` on two optional strings: `b` when `a` is falsy. -/
def py_or (a b : Option Str) : Option Str := if pyTruthy a then a else b

/-- f-string interpolation of `j['link']`: `None` renders as `None`,
and the URL is inserted without escaping. -/
def render_link : Option Str → Str
  | some s => s
  | none => "None".data

/-- Model of `j.get('location') or '—'`: the location text, or the em-dash
placeholder when it is `None` or empty. -/
def location_or_dash (j : Job) : Str :=
  match py_or j.location (some "—".data) with
  | some s => s
  | none => []

/-- One `<tr>` row of the digest table: index, linked title, company
falling back to source, location falling back to the placeholder; an
`html.escape` applied to a `None` field raises, modelled as `.error`. -/
def row_html (i : Nat) (j : Job) : Except Unit Str :=
  match j.title with
  | none => .error ()
  | some t =>
    match py_or j.company j.source with
    | none => .error ()
    | some comp =>
      .ok ("<tr><td>".data ++ natStr i
        ++ "</td><td><a href=\x27".data ++ render_link j.link
        ++ "\x27>".data ++ html_escape t
        ++ "</a></td><td>".data ++ html_escape comp
        ++ "</td><td>".data ++ html_escape (location_or_dash j)
        ++ "</td></tr>".data)

/-- The rows of the table, numbered from `i`. -/
def rows_html (i : Nat) : List Job → Except Unit (List Str)
  | [] => .ok []
  | j :: rest =>
    match row_html i j with
    | .error e => .error e
    | .ok r =>
      match rows_html (i + 1) rest with
      | .error e => .error e
      | .ok rs => .ok (r :: rs)

def no_jobs_msg : Str := "<p>No matching jobs found today.</p>".data

def table_head : Str :=
  ("<table border=\x271\x27 cellpadding=\x276\x27>"
    ++ "<tr><th>#</th><th>Title</th><th>Company</th><th>Location</th></tr>").data

/-- Model of `build_email_html`: the fixed message on an empty list, otherwise the
header row plus one row per job wrapped in a `<table>`. -/
def build_email_html (jobs : List Job) : Except Unit Str :=
  if jobs.isEmpty then .ok no_jobs_msg
  else
    match rows_html 1 jobs with
    | .error e => .error e
    | .ok rows => .ok (table_head ++ List.foldr (· ++ ·) [] rows ++ "</table>".data)

/-- The spec's description of one rendered row (total, for well-formed
jobs): 1-based index, title as a hyperlink to the raw link, escaped
title/company-or-source/location-or-placeholder. -/
def spec_row (i : Nat) (j : Job) : Str :=
  "<tr><td>".data ++ natStr i
    ++ "</td><td><a href=\x27".data ++ render_link j.link
    ++ "\x27>".data ++ html_escape (j.title.getD [])
    ++ "</a></td><td>".data ++ html_escape ((py_or j.company j.source).getD [])
    ++ "</td><td>".data ++ html_escape (location_or_dash j)
    ++ "</td></tr>".data

/-- A job renders without error: its title is a string and its
company-or-source fallback is a string. -/
def renderable (j : Job) : Bool :=
  j.title.isSome && (py_or j.company j.source).isSome

-- ---------------- send_email ----------------

/-- The network steps a successful `send_email` performs, in order. -/
inductive SmtpAction where
  | connect
  | starttlsStep
  | login
  | sendmail
deriving DecidableEq

/-- Model of `send_email`, with the two credential environment variables as
explicit inputs: raise `RuntimeError` when either is unset (falsy),
before any network action; otherwise perform the SMTP conversation. -/
def send_email (gmail_user gmail_app_password : Option Str)
    (_subject _body : Str) : Except Str (List SmtpAction) :=
  if !pyTruthy gmail_user || !pyTruthy gmail_app_password then
    .error "Gmail credentials not set".data
  else
    .ok [ SmtpAction.connect, SmtpAction.starttlsStep
        , SmtpAction.login, SmtpAction.sendmail ]

-- ---------------- Scrapers ----------------

/-- One anchor element as the scrapers read it: the `href` attribute (or
`None`), its visible text, and the text of its parent block when the
parent exists. -/
structure Anchor where
  href : Option Str
  text : Str
  parentText : Option Str

/-- The job dict `scrape_indeed` builds from one anchor. -/
def indeed_job (a : Anchor) : Job :=
  let link0 := a.href.getD []
  let link :=
    if headMatch "/".data link0 then "https://in.indeed.com".data ++ link0
    else link0
  let snippet :=
    match a.parentText with
    | some p => normalize_text p
    | none => []
  { title := some (normalize_text a.text), company := none
  , location := some snippet, link := some link
  , source := some "Indeed".data, snippet := some snippet }

/-- Model of `scrape_indeed`, with the fetch-and-parse step (HTTP GET plus HTML
parsing, the only failure point of the call) abstracted as an `Except`
input: on failure, log the error and return no jobs; on success, build a
job from each of the first 25 matched anchors.  The second component is
the log output. -/
def scrape_indeed (fetched : Except Str (List Anchor)) :
    List Job × List Str :=
  match fetched with
  | .error e => ([], ["Indeed error: ".data ++ e])
  | .ok anchors => ((anchors.take 25).map indeed_job, [])

/-- The job dict `scrape_wellfound` builds from one anchor's link. -/
def wellfound_job (a : Anchor) (link : Str) : Job :=
  let title := normalize_text a.text
  { title := some title, company := none
  , location := some "Remote".data, link := some link
  , source := some "Wellfound".data, snippet := some title }

/-- The wellfound anchor loop: skip falsy hrefs, resolve relative links,
skip links already seen. -/
def wellfound_loop (seen : List Str) : List Anchor → List Job
  | [] => []
  | a :: rest =>
    match a.href with
    | none => wellfound_loop seen rest
    | some href =>
      if href.isEmpty then wellfound_loop seen rest
      else
        let link :=
          if headMatch "/".data href then "https://wellfound.com".data ++ href
          else href
        if seen.any (fun s => s == link) then wellfound_loop seen rest
        else wellfound_job a link :: wellfound_loop (link :: seen) rest

/-- Model of `scrape_wellfound`, fetch-and-parse abstracted as in
`scrape_indeed`. -/
def scrape_wellfound (fetched : Except Str (List Anchor)) :
    List Job × List Str :=
  match fetched with
  | .error e => ([], ["Wellfound error: ".data ++ e])
  | .ok anchors => (wellfound_loop [] anchors, [])

-- ---------------- Auxiliary definitions for the theorems ----------------

/-- Model of `experience_matches` with its only-upper-bound branch replaced by an
arbitrary constant: used to show that branch (and with it the trailing
`return False` of the source) cannot influence any composite with
`parse_experience_text`. -/
def experience_matches_lower_shapes (min_y max_y : Option Nat) : Bool :=
  match min_y, max_y with
  | none, none => true
  | some n, some m => !(decide (m < MIN_YEARS) || decide (n > MAX_YEARS))
  | some n, none => decide (n ≤ MAX_YEARS)
  | none, some _ => true

/-- The spec's description of the table body: one row per job, numbered
from `i`. -/
def spec_rows (i : Nat) : List Job → List Str
  | [] => []
  | j :: rest => spec_row i j :: spec_rows (i + 1) rest

/-- The synthetic end-to-end example of the spec: five raw jobs mixing
matching and non-matching keywords, experience and location. -/
def sample_jobs : List Job :=
  [ { title := some "Senior DevOps Engineer".data, company := some "Acme".data
    , location := some "Remote, India".data, link := some "https://jobs.example/1".data
    , source := some "Indeed".data, snippet := some "3-5 years experience".data }
  , { title := some "Graphic Designer".data, company := some "Studio".data
    , location := some "Remote".data, link := some "https://jobs.example/2".data
    , source := some "Indeed".data, snippet := some "2 years".data }
  , { title := some "Cloud Engineer".data, company := some "Beta".data
    , location := some "Remote".data, link := some "https://jobs.example/3".data
    , source := some "Wellfound".data, snippet := some "10+ years required".data }
  , { title := some "SRE".data, company := some "Gamma".data
    , location := some "San Francisco, CA".data, link := some "https://jobs.example/4".data
    , source := some "Indeed".data, snippet := some "4 years".data }
  , { title := some "Platform Engineer".data, company := some "Delta".data
    , location := some "Pan India".data, link := some "https://jobs.example/5".data
    , source := some "Wellfound".data, snippet := some "minimum of 4 years".data } ]

/-- A record with `company = None`, the shape both fetchers produce. -/
def none_company_job : Job :=
  { title := some "DevOps Engineer".data, company := none
  , location := some "Remote".data, link := some "https://jobs.example/9".data
  , source := some "Indeed".data, snippet := some "DevOps Engineer".data }

/-- Two records sharing a link and one with an empty key, for the
deduplication witnesses. -/
def dup_jobs : List Job :=
  [ { title := some "First title".data, company := none
    , location := some "Remote".data, link := some "https://jobs.example/a".data
    , source := some "Indeed".data, snippet := some "x".data }
  , { title := some "Second title".data, company := none
    , location := some "Remote".data, link := some "https://jobs.example/a".data
    , source := some "Wellfound".data, snippet := some "y".data }
  , { title := some [], company := none
    , location := some "Remote".data, link := some []
    , source := some "Indeed".data, snippet := some "z".data } ]

/-- A job whose title contains HTML-special characters, for the formatter
witness. -/
def html_job : Job :=
  { title := some "C++ <Cloud> Engineer".data, company := none
  , location := some [], link := some "https://jobs.example/h".data
  , source := some "Wellfound".data, snippet := some "".data }

-- ---------------- Theorems ----------------

/-- Claim C3: `parse_experience_text` applies its pattern rules in the fixed
order first-match-wins — "N-M years" gives (N,M), then "N+ years" gives
(N, None), then "minimum of N years" gives (N, None), then "N years"
gives (N,N), otherwise (None, None); in particular on the spec's five
examples (where "minimum of 4 years" also exercises the precedence of
rule (c) over rule (d)). -/
theorem parse_experience_text_examples :
    parse_experience_text "3-5 years".data = (some 3, some 5)
    ∧ parse_experience_text "5+ years".data = (some 5, none)
    ∧ parse_experience_text "minimum of 4 years".data = (some 4, none)
    ∧ parse_experience_text "2 years".data = (some 2, some 2)
    ∧ parse_experience_text "senior engineer".data = (none, none) :=
  ⟨rfl, rfl, rfl, rfl, rfl⟩

/-- Claim C4: `experience_matches` on the window `[MIN_YEARS, MAX_YEARS] =
[2,6]`: both bounds unknown passes; both known passes iff the ranges are
not disjoint; only a lower bound `N` passes iff `N ≤ 6`; only an upper
bound passes iff it is at least `2`; and the spec's five examples. -/
theorem experience_matches_window :
    experience_matches none none = true
    ∧ (∀ n m : Nat,
        experience_matches (some n) (some m) = true ↔ ¬(m < 2 ∨ n > 6))
    ∧ (∀ n : Nat, experience_matches (some n) none = true ↔ n ≤ 6)
    ∧ (∀ m : Nat, experience_matches none (some m) = true ↔ 2 ≤ m)
    ∧ experience_matches (some 3) (some 5) = true
    ∧ experience_matches (some 7) none = false
    ∧ experience_matches none (some 1) = false
    ∧ experience_matches (some 1) (some 2) = true := by
  refine ⟨rfl, ?_, ?_, ?_, rfl, rfl, rfl, rfl⟩
  · intro n m
    simp [experience_matches, MIN_YEARS, MAX_YEARS]
  · intro n
    simp [experience_matches, MAX_YEARS]
  · intro m
    simp [experience_matches, MIN_YEARS]

/-- Claim C7: when the fetch-and-parse step of a scraper fails with any error,
the scraper logs the site-tagged error message and returns the empty job
list; the failure is absorbed, not propagated. -/
theorem scrapers_fail_soft (e : Str) :
    scrape_indeed (.error e) = ([], ["Indeed error: ".data ++ e])
    ∧ scrape_wellfound (.error e) = ([], ["Wellfound error: ".data ++ e]) :=
  ⟨rfl, rfl⟩

/-- Claim C9: with either credential unset (or otherwise falsy), `send_email`
raises `RuntimeError` with no SMTP action performed, for every subject
and body. -/
theorem send_email_missing_credentials
    (user pw : Option Str) (subject body : Str)
    (h : pyTruthy user = false ∨ pyTruthy pw = false) :
    send_email user pw subject body = .error "Gmail credentials not set".data := by
  unfold send_email
  rcases h with h | h <;> simp [h]

/-- Witness for C9 at unset credentials. -/
theorem send_email_missing_credentials_witness :
    (pyTruthy none = false ∨ pyTruthy none = false)
    ∧ send_email none none "subject".data "body".data
        = .error "Gmail credentials not set".data :=
  ⟨Or.inl rfl,
   send_email_missing_credentials none none "subject".data "body".data (Or.inl rfl)⟩

/-- Claim C10: `parse_experience_text` never returns an unknown lower bound
together with a known upper bound, so the only-upper-bound branch of
`experience_matches` (and the trailing `return False` of its source) is
irrelevant on parser output: replacing that branch by a constant never
changes the composite. -/
theorem parse_experience_text_shapes (text : Str) :
    ((parse_experience_text text).1.isSome = true
      ∨ parse_experience_text text = (none, none))
    ∧ experience_matches (parse_experience_text text).1
        (parse_experience_text text).2
      = experience_matches_lower_shapes (parse_experience_text text).1
          (parse_experience_text text).2 := by
  unfold parse_experience_text
  split
  · exact ⟨Or.inr rfl, rfl⟩
  split
  · exact ⟨Or.inl rfl, rfl⟩
  split
  · exact ⟨Or.inl rfl, rfl⟩
  split
  · exact ⟨Or.inl rfl, rfl⟩
  split
  · exact ⟨Or.inl rfl, rfl⟩
  · exact ⟨Or.inr rfl, rfl⟩

/-- A record whose `company` value is `None` makes the field join raise. -/
theorem joined_fields_company_none (j : Job) (h : j.company = none) :
    joined_fields j = .error () := by
  unfold joined_fields
  rcases j with ⟨t, c, l, lk, src, sn⟩
  simp only at h
  subst h
  cases t <;> cases l <;> cases sn <;> rfl

/-- A record with all four text fields strings joins without error. -/
theorem joined_fields_string_valued (j : Job) (h : string_valued j = true) :
    joined_fields j
      = .ok (List.intercalate " ".data
          [j.title.getD [], j.company.getD [], j.location.getD [],
           j.snippet.getD []]) := by
  rcases j with ⟨t, c, l, lk, src, sn⟩
  rcases t with _ | t' <;> rcases c with _ | c' <;> rcases l with _ | l' <;>
    rcases sn with _ | s' <;>
    first
      | rfl
      | simp [string_valued] at h

/-- Claim C1: on a list of records whose four text fields are all strings,
`filter_jobs` succeeds and returns exactly the order-preserving
`List.filter` of the per-record predicate (keyword relevance, experience
match and location match of the combined text all holding). -/
theorem filter_jobs_is_filter (jobs : List Job)
    (h : jobs.all string_valued = true) :
    filter_jobs jobs = .ok (jobs.filter passes_filter) := by
  induction jobs with
  | nil => rfl
  | cons j rest ih =>
    rw [List.all_cons, Bool.and_eq_true] at h
    obtain ⟨hj, hrest⟩ := h
    have hraw := joined_fields_string_valued j hj
    have hpass : passes_filter j
        = job_passes j (List.intercalate " ".data
            [j.title.getD [], j.company.getD [], j.location.getD [],
             j.snippet.getD []]) := by
      unfold passes_filter
      rw [hraw]
    unfold filter_jobs
    rw [hraw, ih hrest, List.filter_cons, hpass]

/-- Witness for C1 on the spec's five-job synthetic list: the hypothesis
holds, and exactly the first and last job survive, in order. -/
theorem filter_jobs_is_filter_witness :
    sample_jobs.all string_valued = true
    ∧ filter_jobs sample_jobs = .ok (sample_jobs.filter passes_filter)
    ∧ sample_jobs.filter passes_filter
        = [sample_jobs.get ⟨0, by decide⟩, sample_jobs.get ⟨4, by decide⟩] :=
  ⟨by decide, filter_jobs_is_filter sample_jobs (by decide), by decide⟩

/-- Claim C2: a record whose `company` key holds `None` — the shape both
fetchers produce — makes `filter_jobs` raise a `TypeError` from the
string join, aborting the whole call. -/
theorem filter_jobs_company_none (jobs : List Job)
    (h : ∃ j ∈ jobs, j.company = none) :
    filter_jobs jobs = .error () := by
  induction jobs with
  | nil => simp at h
  | cons j rest ih =>
    by_cases hc : j.company = none
    · unfold filter_jobs
      rw [joined_fields_company_none j hc]
    · have hrest : ∃ x ∈ rest, x.company = none := by
        rcases h with ⟨x, hx, hxc⟩
        rcases List.mem_cons.mp hx with rfl | hx'
        · exact absurd hxc hc
        · exact ⟨x, hx', hxc⟩
      unfold filter_jobs
      rcases hj : joined_fields j with e | raw
      · rfl
      · rw [ih hrest]

/-- Witness for C2 at a concrete fetcher-shaped record. -/
theorem filter_jobs_company_none_witness :
    (∃ j ∈ [none_company_job], j.company = none)
    ∧ filter_jobs [none_company_job] = .error () :=
  ⟨⟨none_company_job, by decide, rfl⟩,
   filter_jobs_company_none [none_company_job]
     ⟨none_company_job, by decide, rfl⟩⟩

/-- Key lookup in the accumulated dict equals lookup in the reversed key
list. -/
theorem keys_any_eq (acc : List (Str × Job)) (k : Str) :
    ((acc.map (fun p => p.1)).reverse).any (fun s => s == k)
      = acc.any (fun p => p.1 == k) := by
  induction acc with
  | nil => rfl
  | cons p rest ih =>
    simp only [List.map_cons, List.reverse_cons, List.any_append,
      List.any_cons, List.any_nil, Bool.or_false, ih]
    exact Bool.or_comm _ _

/-- The fold over `dedup_step` refines the spec's first-seen walk, for
any starting dict. -/
theorem foldl_dedup_spec (l : List Job) :
    ∀ acc : List (Str × Job),
      (l.foldl dedup_step acc).map (fun p => p.2)
        = acc.map (fun p => p.2)
          ++ first_seen_dedup ((acc.map (fun p => p.1)).reverse) l := by
  induction l with
  | nil => intro acc; simp [first_seen_dedup]
  | cons j rest ih =>
    intro acc
    rw [List.foldl_cons, ih (dedup_step acc j)]
    rcases hk : dedup_key j with _ | k
    · simp only [dedup_step, first_seen_dedup, hk]
    · simp only [dedup_step, first_seen_dedup, hk, keys_any_eq]
      by_cases he : k.isEmpty = true
      · simp only [if_pos he]
      · simp only [if_neg he]
        by_cases hs : (acc.any fun p => p.1 == k) = true
        · simp only [if_pos hs]
        · simp only [if_neg hs]
          simp [List.map_append, List.reverse_append]

/-- Claim C5: `collect_jobs` deduplicates the concatenated fetcher outputs with
first-seen-wins semantics — it returns exactly the spec's first-seen walk
over the input: the first record of each dedup key in first-seen key
order, later records with an already-seen key dropped. -/
theorem collect_jobs_first_seen (scraped : List Job) :
    collect_jobs scraped = first_seen_dedup [] scraped := by
  have h := foldl_dedup_spec scraped []
  simpa [collect_jobs] using h

/-- A record inserted by the dedup loop has a truthy key, hence a
non-empty link or a non-empty title. -/
theorem dedup_key_truthy (j : Job) (k : Str) (hk : dedup_key j = some k)
    (hne : k.isEmpty = false) :
    pyTruthy j.link = true ∨ pyTruthy j.title = true := by
  unfold dedup_key at hk
  by_cases hl : pyTruthy j.link = true
  · exact Or.inl hl
  · right
    rw [if_neg (by simpa using hl)] at hk
    simp [pyTruthy, hk, hne]

/-- Every record accumulated by the dedup fold, beyond the initial ones,
has a non-empty link or title. -/
theorem foldl_dedup_truthy (l : List Job) :
    ∀ acc : List (Str × Job),
      (∀ p ∈ acc, pyTruthy p.2.link = true ∨ pyTruthy p.2.title = true) →
      ∀ p ∈ l.foldl dedup_step acc,
        pyTruthy p.2.link = true ∨ pyTruthy p.2.title = true := by
  induction l with
  | nil => exact fun acc hacc p hp => hacc p hp
  | cons j rest ih =>
    intro acc hacc p hp
    rw [List.foldl_cons] at hp
    refine ih (dedup_step acc j) ?_ p hp
    intro q hq
    rcases hk : dedup_key j with _ | k
    · simp only [dedup_step, hk] at hq
      exact hacc q hq
    · simp only [dedup_step, hk] at hq
      by_cases he : k.isEmpty = true
      · rw [if_pos he] at hq
        exact hacc q hq
      · rw [if_neg he] at hq
        by_cases hs : acc.any (fun p => p.1 == k) = true
        · rw [if_pos hs] at hq
          exact hacc q hq
        · rw [if_neg hs] at hq
          rcases List.mem_append.mp hq with hq' | hq'
          · exact hacc q hq'
          · have : q = (k, j) := by simpa using hq'
            subst this
            exact dedup_key_truthy j k hk (by simpa using he)

/-- Claim C6: every record retained by `collect_jobs` has a non-empty link or a
non-empty title (its dedup key is non-empty, link preferred); a record
with both empty is never retained. -/
theorem collect_jobs_key_nonempty (scraped : List Job) (j : Job)
    (hmem : j ∈ collect_jobs scraped) :
    pyTruthy j.link = true ∨ pyTruthy j.title = true := by
  unfold collect_jobs at hmem
  rcases List.mem_map.mp hmem with ⟨p, hp, rfl⟩
  refine foldl_dedup_truthy scraped [] ?_ p hp
  intro q hq
  simp at hq

/-- Witness for C6: the first duplicate-link record is retained and has a
non-empty link. -/
theorem collect_jobs_key_nonempty_witness :
    dup_jobs.get ⟨0, by decide⟩ ∈ collect_jobs dup_jobs
    ∧ (pyTruthy (dup_jobs.get ⟨0, by decide⟩).link = true
        ∨ pyTruthy (dup_jobs.get ⟨0, by decide⟩).title = true) :=
  ⟨by decide,
   collect_jobs_key_nonempty dup_jobs (dup_jobs.get ⟨0, by decide⟩) (by decide)⟩

/-- The row renderer succeeds on renderable jobs and produces the spec's
rows. -/
theorem rows_html_eq_spec (jobs : List Job) :
    ∀ i : Nat, jobs.all renderable = true →
      rows_html i jobs = .ok (spec_rows i jobs) := by
  induction jobs with
  | nil => intro i _; rfl
  | cons j rest ih =>
    intro i h
    rw [List.all_cons, Bool.and_eq_true] at h
    obtain ⟨hj, hrest⟩ := h
    unfold renderable at hj
    rw [Bool.and_eq_true] at hj
    obtain ⟨t, ht⟩ := Option.isSome_iff_exists.mp hj.1
    obtain ⟨cp, hcp⟩ := Option.isSome_iff_exists.mp hj.2
    simp [rows_html, row_html, spec_rows, spec_row, ht, hcp, ih (i + 1) hrest]

/-- Claim C8: `build_email_html` maps the empty list to the exact fixed
message; a non-empty renderable list yields the table header plus the
concatenation of one spec row per job (1-based index, title hyperlinked
to the raw unescaped link, escaped title / company-or-source /
location-or-placeholder); the row count equals the job count; and
`html.escape` turns `<` into `&lt;`. -/
theorem build_email_html_rendering :
    build_email_html [] = .ok no_jobs_msg
    ∧ (∀ jobs : List Job, jobs ≠ [] → jobs.all renderable = true →
        build_email_html jobs
          = .ok (table_head ++ List.foldr (· ++ ·) [] (spec_rows 1 jobs)
              ++ "</table>".data))
    ∧ (∀ (i : Nat) (jobs : List Job), (spec_rows i jobs).length = jobs.length)
    ∧ html_escape "<".data = "&lt;".data := by
  refine ⟨rfl, ?_, ?_, rfl⟩
  · intro jobs hne h
    unfold build_email_html
    rw [if_neg (by simpa using hne), rows_html_eq_spec jobs 1 h]
  · intro i jobs
    induction jobs generalizing i with
    | nil => rfl
    | cons j rest ih => simp [spec_rows, ih]

/-- Witness for C8 on a single job whose title holds HTML-special
characters. -/
theorem build_email_html_rendering_witness :
    ([html_job] ≠ [] ∧ [html_job].all renderable = true)
    ∧ build_email_html [html_job]
        = .ok (table_head ++ List.foldr (· ++ ·) [] (spec_rows 1 [html_job])
            ++ "</table>".data)
    ∧ html_escape "C++ <Cloud> Engineer".data
        = "C++ &lt;Cloud&gt; Engineer".data :=
  ⟨⟨by decide, by decide⟩,
   build_email_html_rendering.2.1 [html_job] (by decide) (by decide),
   by decide⟩

end JobsScraper
